import Mathlib

/-!
Verification development for the pypilot command-line launcher
(`src/main.py`).  The definitions below are a shallow embedding of the
parts of the program the specification claims talk about: the config
validator, the menu layout and rendering, selection resolution, the
mode state machine, the restricted calculator evaluation, and action
dispatch.  External collaborators (file system, JSON parser, OS calls,
clipboard, stdin) are modelled as injected environments or scripted
input lists, exactly at the boundary the program itself uses them.
-/

set_option linter.unusedVariables false

namespace PyPilot

/-! ### Python string primitives used by the program -/

/-- Characters removed by Python `str.strip()` with no argument
(ASCII whitespace; every string the program strips here is ASCII). -/
def isPySpace (c : Char) : Bool :=
  c = ' ' || c = '\t' || c = '\n' || c = '\r' || c = '\x0b' || c = '\x0c'

/-- Python `str.strip()`. -/
def pyStrip (s : String) : String :=
  ⟨((s.data.dropWhile isPySpace).reverse.dropWhile isPySpace).reverse⟩

/-- Python `str.lower()` (ASCII case mapping; the reserved command
tokens compared against are ASCII). -/
def pyLower (s : String) : String :=
  ⟨s.data.map Char.toLower⟩

/-- Numeric value of a decimal digit character. -/
def digitVal (c : Char) : Nat := c.toNat - 48

/-- Digit tail of a Python integer literal: decimal digits with single
underscores allowed between digits, as accepted by `int("1_0")`;
a doubled or trailing underscore fails. -/
def pyDigitsTail (acc : Nat) : List Char → Option Nat
  | [] => some acc
  | '_' :: c :: rest =>
    if c.isDigit then pyDigitsTail (acc * 10 + digitVal c) rest else none
  | c :: rest =>
    if c.isDigit then pyDigitsTail (acc * 10 + digitVal c) rest else none

/-- A nonempty digit sequence (with underscore separators). -/
def pyDigits : List Char → Option Nat
  | [] => none
  | c :: rest => if c.isDigit then pyDigitsTail (digitVal c) rest else none

/-- Python `int(s)` on a string: strips whitespace, accepts an optional
sign and decimal digits; any other shape raises `ValueError`,
modelled as `none`. -/
def pyParseInt (s : String) : Option Int :=
  match (pyStrip s).data with
  | '+' :: rest => (pyDigits rest).map (fun n => (n : Int))
  | '-' :: rest => (pyDigits rest).map (fun n => -(n : Int))
  | l => (pyDigits l).map (fun n => (n : Int))

/-- Python slicing `s[:k]` with an `Int` bound: a negative bound counts
from the end of the string, clamped at zero. -/
def pySliceTo (s : String) (k : Int) : String :=
  if 0 ≤ k then ⟨s.data.take k.toNat⟩
  else ⟨s.data.take (s.length - (-k).toNat)⟩

/-- Python string repetition `c * n` (empty for `n ≤ 0`). -/
def pyRepeat (c : Char) (n : Int) : String :=
  ⟨List.replicate n.toNat c⟩

/-- Python left-justification to width `w` (the `:<6` format spec):
a no-op on strings already at least that wide. -/
def pyLJust (s : String) (w : Nat) : String :=
  s ++ ⟨List.replicate (w - s.length) ' '⟩

/-! ### Constants (lines 17-18 of the source) -/

def MAX_MISTAKES : Nat := 5

def COLUMN_WIDTH : Nat := 43

/-! ### Config data model (the shapes `load_and_validate_config` reads) -/

/-- A JSON scalar stored under a config key, at the granularity the
validator distinguishes: a string, an integer, a boolean (Python's
`isinstance(x, int)` also accepts booleans), or any other JSON value. -/
inductive JVal where
  | jstr (s : String)
  | jint (n : Int)
  | jbool (b : Bool)
  | jother
deriving DecidableEq, Repr

/-- The integer reading of a value, when `isinstance(x, int)` holds:
Python treats `True` as `1` and `False` as `0`. -/
def JVal.intVal : JVal → Option Int
  | .jint n => some n
  | .jbool b => some (if b then 1 else 0)
  | _ => none

/-- One raw element of the config array: the dictionary keys the
program reads; `none` models an absent key. -/
structure RawItem where
  numer : Option JVal
  name : Option JVal
  category : Option JVal
  skroty : Option JVal
deriving DecidableEq, Repr

/-- `item['numer']` as an integer, when present with an int shape. -/
def RawItem.numerInt (item : RawItem) : Option Int :=
  item.numer.bind JVal.intVal

/-- The id key used by `main`'s sort and the launcher; on a validated
config the fallback value never fires. -/
def RawItem.numerKey (item : RawItem) : Int :=
  item.numerInt.getD 0

/-- `item['skroty']` when present as a string (the only shape that
survives validation). -/
def RawItem.skrotyStr (item : RawItem) : Option String :=
  match item.skroty with
  | some (.jstr s) => some s
  | _ => none

/-! ### Validation (`load_and_validate_config`, lines 54-96) -/

/-- The validation errors, one constructor per distinct error message,
carrying exactly the data interpolated into that message:
* `missingCategory i`: "Pozycja nr i nie ma klucza 'category' lub jest on pusty."
* `missingNumer i`: "Pozycja nr i nie ma klucza 'numer' lub nie jest liczbą."
* `duplicateNumer n`: "Numer 'n' jest zduplikowany."
* `badSkroty n`: "'skroty' dla pozycji n musi być tekstem." (non-string or empty)
* `duplicateSkroty s`: "Skrót 's' jest zduplikowany."
-/
inductive ConfigError where
  | missingCategory (pos : Nat)
  | missingNumer (pos : Nat)
  | duplicateNumer (numer : Int)
  | badSkroty (numer : Int)
  | duplicateSkroty (shortcut : String)
deriving DecidableEq, Repr

/-- The 1-based element position that the error message actually
reports; only the category and numer shape messages mention one
(the duplicate and shortcut messages cite the id or the value). -/
def ConfigError.reportedPos : ConfigError → Option Nat
  | .missingCategory i => some i
  | .missingNumer i => some i
  | _ => none

/-- The category check of line 76: key present, a string, and non-blank
after stripping. -/
def categoryOk (item : RawItem) : Bool :=
  match item.category with
  | some (.jstr s) => pyStrip s != ""
  | _ => false

/-- One iteration of the validation loop (lines 76-95), for the element
at 1-based position `i` given the ids `seenN` and shortcuts `seenS`
seen so far; `none` means the element passes. -/
def elementError (seenN : List Int) (seenS : List String) (i : Nat)
    (item : RawItem) : Option ConfigError :=
  if ¬ categoryOk item then some (.missingCategory i)
  else
    match item.numerInt with
    | some n =>
      if n ∈ seenN then some (.duplicateNumer n)
      else
        match item.skroty with
        | none => none
        | some (.jstr s) =>
          if s = "" then some (.badSkroty n)
          else if s ∈ seenS then some (.duplicateSkroty s)
          else none
        | some _ => some (.badSkroty n)
    | none => some (.missingNumer i)

/-- `seen_numbers.add(number)` for a passing element. -/
def updateSeenN (seenN : List Int) (item : RawItem) : List Int :=
  match item.numerInt with
  | some n => n :: seenN
  | none => seenN

/-- `seen_shortcuts.add(shortcut)` for a passing element with a
shortcut key. -/
def updateSeenS (seenS : List String) (item : RawItem) : List String :=
  match item.skrotyStr with
  | some s => s :: seenS
  | none => seenS

/-- The validation loop of lines 74-96, additionally returning the
final accumulated state (ids seen, shortcuts seen, next 1-based
position); the loop itself only uses the error side. -/
def validateScan (seenN : List Int) (seenS : List String) (i : Nat) :
    List RawItem → Except ConfigError (List Int × List String × Nat)
  | [] => .ok (seenN, seenS, i)
  | item :: rest =>
    match elementError seenN seenS i item with
    | some e => .error e
    | none => validateScan (updateSeenN seenN item) (updateSeenS seenS item) (i + 1) rest

/-- Whole-array validation: 1-based enumeration from empty seen sets. -/
def validateConfig (data : List RawItem) : Except ConfigError Unit :=
  (validateScan [] [] 1 data).map (fun _ => ())

/-- Outcome of reading and JSON-parsing the config file (file system
and JSON parser are external collaborators; this is the injected
environment).  An empty file parses to the empty array (lines 58-61). -/
inductive ParseResult where
  | fileNotFound
  | parseError
  | parsed (data : List RawItem)
deriving DecidableEq, Repr

/-- `load_and_validate_config` (lines 54-96): `none` is the Python
`None` returned on a missing file, a JSON syntax error, or a
validation error; on success the raw array is returned unchanged
(no sorting happens here - `main` sorts it at line 367). -/
def load_and_validate_config : ParseResult → Option (List RawItem)
  | .fileNotFound => none
  | .parseError => none
  | .parsed data =>
    match validateConfig data with
    | .ok _ => some data
    | .error _ => none

/-- `config.sort(key=lambda item: item['numer'])` (line 367); Python's
sort is a stable mergesort. -/
def sortByNumer (data : List RawItem) : List RawItem :=
  data.mergeSort (fun a b => decide (a.numerKey ≤ b.numerKey))

/-! ### Menu entries (the validated shape the menu code works on) -/

/-- A menu entry as the post-load code reads it: integer id, string
name, string category, optional string shortcut.  Validation forces
this shape for id, category and shortcut; `name` is read unchecked. -/
structure MenuEntry where
  numer : Int
  name : String
  category : String
  skroty : Option String
deriving DecidableEq, Repr

/-- `item['name']` as a string (the menu code reads it unchecked). -/
def RawItem.nameStr (item : RawItem) : String :=
  match item.name with
  | some (.jstr s) => s
  | _ => ""

/-- `item['category']` as a string (validated shape). -/
def RawItem.categoryStr (item : RawItem) : String :=
  match item.category with
  | some (.jstr s) => s
  | _ => ""

/-- View of a raw config element as a menu entry; on a validated config
the fallback defaults never fire (except for `name`, which the
validator does not inspect). -/
def RawItem.toEntry (item : RawItem) : MenuEntry :=
  ⟨item.numerKey, item.nameStr, item.categoryStr, item.skrotyStr⟩

/-! ### Global command routing (`process_global_commands`, lines 98-105) -/

/-- The five top-level interaction states of the program. -/
inductive Mode where
  | launcher
  | transform
  | calculator
  | date
  | exit
deriving DecidableEq, Repr

/-- `process_global_commands`: the five reserved tokens, matched
case-insensitively; anything else is left to the current mode. -/
def process_global_commands (choiceStr : String) : Option Mode :=
  let choice := pyLower choiceStr
  if choice = ">e" then some .exit
  else if choice = ">p" then some .launcher
  else if choice = ">t" then some .transform
  else if choice = ">c" then some .calculator
  else if choice = ">d" then some .date
  else none

/-! ### Selection resolution (`run_launcher_mode`, lines 180-185) -/

/-- Selection resolution: an empty line selects nothing; otherwise the
id match `next(item for item in config if item['numer'] == int(choice_str))`
is tried first, and both of its failure modes - `ValueError` (the token
is not an integer) and `StopIteration` (no entry carries that id) -
fall through to the shortcut comparison `item.get('skroty') == choice_str`. -/
def resolveEntry (config : List MenuEntry) (s : String) : Option MenuEntry :=
  if s = "" then none
  else
    match pyParseInt s with
    | some k =>
      match config.find? (fun it => it.numer == k) with
      | some it => some it
      | none => config.find? (fun it => it.skroty == some s)
    | none => config.find? (fun it => it.skroty == some s)

/-- Modelled from the claim's words, for comparison with
`resolveEntry`: "if the input token parses as an integer, the entry is
matched by id; otherwise it is matched by shortcut; when neither
matching applies or matches, the result is NotFound". -/
def resolveClaimC4 (config : List MenuEntry) (s : String) : Option MenuEntry :=
  match pyParseInt s with
  | some k => config.find? (fun it => it.numer == k)
  | none => config.find? (fun it => it.skroty == some s)

/-- The amended resolution contract: integer tokens are matched by id
with a fallback to shortcut matching when no entry carries that id;
non-integer tokens are matched by shortcut; the empty line and
unmatched tokens select nothing. -/
def resolveAmended (config : List MenuEntry) (s : String) : Option MenuEntry :=
  if s = "" then none
  else
    match pyParseInt s with
    | some k =>
      (config.find? (fun it => it.numer == k)).orElse
        (fun _ => config.find? (fun it => it.skroty == some s))
    | none => config.find? (fun it => it.skroty == some s)

/-! ### Launcher mode input loop (`run_launcher_mode`, lines 174-195) -/

/-- A line written to the persistent log by the launcher loop:
`logging.warning("Błąd wyboru: input. Pomyłka nr n.")` for the n-th
mistake of the session (line 192). -/
inductive LogEvent where
  | mistakeWarning (input : String) (n : Nat)
deriving DecidableEq, Repr

/-- How a launcher-mode session ends. -/
inductive LauncherResult where
  | toMode (m : Mode)
  | actionExit (e : MenuEntry)
  | mistakeExit
  | blocked
deriving DecidableEq, Repr

/-- One finished launcher-mode session: its result, the unconsumed
input lines, and the log lines it wrote. -/
structure LauncherRun where
  result : LauncherResult
  rest : List String
  logs : List LogEvent
deriving DecidableEq, Repr

/-- The `while mistake_counter < MAX_MISTAKES` loop of lines 175-195,
from a given counter value, driven by a script of input lines.
`blocked` models the real program waiting on `input()` when the script
is exhausted.  A recognised global command returns that mode; a
resolved selection runs the action and returns the exit mode
(single-shot semantics); anything else increments the counter, logs a
warning, and loops; exhausting the counter returns `mistakeExit`
(line 195 returns the literal mode string 'exit'). -/
def runLauncherFrom (config : List MenuEntry) : Nat → List String → LauncherRun
  | counter, [] =>
    if counter < MAX_MISTAKES then ⟨.blocked, [], []⟩
    else ⟨.mistakeExit, [], []⟩
  | counter, s :: rest =>
    if counter < MAX_MISTAKES then
      match process_global_commands s with
      | some m => ⟨.toMode m, rest, []⟩
      | none =>
        match resolveEntry config s with
        | some e => ⟨.actionExit e, rest, []⟩
        | none =>
          let r := runLauncherFrom config (counter + 1) rest
          ⟨r.result, r.rest, .mistakeWarning s (counter + 1) :: r.logs⟩
    else ⟨.mistakeExit, s :: rest, []⟩

/-- One entry into launcher mode: `mistake_counter = 0` at line 174, so
the counter is reset on every (re-)entry.  The menu rendering that
precedes the loop (lines 145-172) consumes no input. -/
def run_launcher_mode (config : List MenuEntry) (inputs : List String) : LauncherRun :=
  runLauncherFrom config 0 inputs

/-- The successive values `mistake_counter` holds each time the loop
condition at line 175 is evaluated, starting from `counter`. -/
def launcherCounters (config : List MenuEntry) : Nat → List String → List Nat
  | counter, [] => [counter]
  | counter, s :: rest =>
    if counter < MAX_MISTAKES then
      match process_global_commands s with
      | some _ => [counter]
      | none =>
        match resolveEntry config s with
        | some _ => [counter]
        | none => counter :: launcherCounters config (counter + 1) rest
    else [counter]

/-! ### Fixed-width cell rendering (`format_item_for_display`, lines 109-138) -/

/-- The prefix of a rendered cell: two spaces then `f"numer."`
left-justified to six characters. -/
def displayPfx (item : MenuEntry) : String :=
  "  " ++ pyLJust (toString item.numer ++ ".") 6

/-- The raw bracketed shortcut, leading space included (line 119);
empty when the entry has no shortcut. -/
def displayShortcutRaw (item : MenuEntry) : String :=
  match item.skroty with
  | some s => " [" ++ s ++ "]"
  | none => ""

/-- `max_name_len` of line 122: the space left for the name.  Computed
in `Int` because the Python value can go negative. -/
def displayMaxNameLen (item : MenuEntry) : Int :=
  (COLUMN_WIDTH : Int) - (displayPfx item).length - (displayShortcutRaw item).length

/-- The name as rendered (lines 125-127): truncated via
`name[:max_name_len - 3] + "..."` exactly when it exceeds
`max_name_len` (note the Python slice bound can go negative). -/
def displayName (item : MenuEntry) : String :=
  if (item.name.length : Int) > displayMaxNameLen item then
    pySliceTo item.name (displayMaxNameLen item - 3) ++ "..."
  else item.name

/-- The space padding of lines 131-132 (`' ' * padding_size`, empty for
a negative size). -/
def displayPadding (item : MenuEntry) : String :=
  pyRepeat ' '
    ((COLUMN_WIDTH : Int) - (displayPfx item).length -
      (displayName item ++ displayShortcutRaw item).length)

/-- `format_item_for_display`, restricted to printable characters: the
real function additionally interleaves ANSI colour escape sequences
(COLOR_A, COLOR_SHORTCUT), which print with zero width; the colour
variant of the shortcut has the same printable characters as
`displayShortcutRaw`.  Layout: prefix, (possibly truncated) name,
bracketed shortcut, space padding. -/
def format_item_for_display (item : MenuEntry) : String :=
  displayPfx item ++ displayName item ++ displayShortcutRaw item ++ displayPadding item

/-! ### Two-column layout (`run_launcher_mode`, lines 159-172) -/

/-- `split_point = math.ceil(num_items / 2)` (line 161); exact as
natural-number arithmetic at list sizes. -/
def splitPointCeil (n : Nat) : Nat := (n + 1) / 2

/-- The two-column layout of one category: row `i` shows
`items[i]` on the left and `items[i + split_point]` on the right when
that index exists, a blank cell otherwise (lines 163-172).  `none` is
the blank cell (`' ' * COLUMN_WIDTH`). -/
def layoutTwoColumn (items : List MenuEntry) :
    List (Option MenuEntry) × List (Option MenuEntry) :=
  let split := splitPointCeil items.length
  ((List.range split).map (fun i => items[i]?),
   (List.range split).map (fun i => items[i + split]?))

/-! ### Calculator expression evaluation (`run_calculator_mode`, lines 254-272)

The source evaluates the typed expression with the host interpreter:
`eval(expression, dict with __builtins__ None, safe_dict)`.  The model
below embeds the fragment of Python expression evaluation the claims
exercise: literals, name lookup against those two namespaces, calls,
attribute access, and addition.  Numbers follow CPython semantics where
those are exact (ints are unbounded; floats are modelled by the exact
rational value of the IEEE double); a call whose CPython result is a
float with no exact specification in this model stops with the
`unmodeled` marker - no theorem in this file evaluates such a call. -/

/-- Decidable equality of `Except` results (not provided by the
library for arbitrary payloads). -/
instance {ε α : Type} [DecidableEq ε] [DecidableEq α] : DecidableEq (Except ε α) := fun x y =>
  match x, y with
  | .ok a, .ok b =>
    if h : a = b then .isTrue (by rw [h]) else .isFalse (fun hc => h (by injection hc))
  | .error a, .error b =>
    if h : a = b then .isTrue (by rw [h]) else .isFalse (fun hc => h (by injection hc))
  | .ok _, .error _ => .isFalse (fun hc => Except.noConfusion hc)
  | .error _, .ok _ => .isFalse (fun hc => Except.noConfusion hc)

/-- The rational value of an integer, built directly (kernel-reducible,
unlike the generic cast). -/
def intCastQ (n : Int) : ℚ :=
  ⟨n, 1, Nat.one_ne_zero, Nat.coprime_one_right _⟩

/-- Absolute value on ℚ, built directly on the reduced fraction. -/
def absQ (q : ℚ) : ℚ :=
  if q.num < 0 then ⟨-q.num, q.den, q.den_nz, by rw [Int.natAbs_neg]; exact q.reduced⟩
  else q

/-- Floor of a rational: floor division of numerator by denominator. -/
def floorQ (q : ℚ) : Int := Int.fdiv q.num q.den

/-- Ceiling of a rational. -/
def ceilQ (q : ℚ) : Int := -(Int.fdiv (-q.num) q.den)

/-- Truncation toward zero (`math.trunc` on an exact rational). -/
def truncQ (q : ℚ) : Int := Int.tdiv q.num q.den

/-- Fuel-driven integer square root (structural recursion, so concrete
values reduce inside the kernel). -/
def isqrtAux : Nat → Nat → Nat
  | 0, _ => 0
  | fuel + 1, n =>
    if n < 4 then (if n = 0 then 0 else 1)
    else
      let r := 2 * isqrtAux fuel (n / 4)
      if (r + 1) * (r + 1) ≤ n then r + 1 else r

/-- Integer square root (rounds down). -/
def isqrt (n : Nat) : Nat := isqrtAux n n

/-- A runtime value of the evaluated fragment. -/
inductive PyVal where
  | vint (n : Int)
  | vfloat (q : ℚ)
  | vstr (s : String)
  | vtype (tname : String)
  | vbuiltin (fname : String)
  | vnone
deriving DecidableEq, Repr

/-- Evaluation outcomes other than a value.  All but `unmodeled` are
Python exceptions (which the calculator loop catches and prints as
"Błąd w wyrażeniu").  `unmodeled` is not a Python behaviour: it marks a
call whose float result this rational model does not assign. -/
inductive PyErr where
  | nameError (nameId : String)
  | typeError
  | valueError
  | attributeError (attrId : String)
  | unmodeled (what : String)
deriving DecidableEq, Repr

/-- The `safe_dict` of line 255 passed to `eval` as locals: the thirteen
allow-listed functions and the two float constants (given as the exact
rational values of the IEEE doubles `math.pi` and `math.e`). -/
def safe_dict : List (String × PyVal) :=
  [("pow", .vbuiltin "pow"), ("sqrt", .vbuiltin "sqrt"), ("fabs", .vbuiltin "fabs"),
   ("gcd", .vbuiltin "gcd"), ("floor", .vbuiltin "floor"), ("ceil", .vbuiltin "ceil"),
   ("trunc", .vbuiltin "trunc"), ("sin", .vbuiltin "sin"), ("cos", .vbuiltin "cos"),
   ("tan", .vbuiltin "tan"), ("log", .vbuiltin "log"), ("log10", .vbuiltin "log10"),
   ("factorial", .vbuiltin "factorial"),
   ("pi", .vfloat (884279719003555 / 281474976710656 : ℚ)),
   ("e", .vfloat (6121026514868073 / 2251799813685248 : ℚ))]

/-- Name lookup under `eval(expression, dict with __builtins__ None, safe_dict)`:
locals (`safe_dict`) first, then the globals dict, whose only key is
`__builtins__` bound to `None`; everything else fails - which is all
the namespace restriction the source achieves.  The model labels the
failure `nameError`; CPython's concrete exception when the builtins
fallback is `None` is a `TypeError` ("'NoneType' object is not
subscriptable") - either way an evaluation error, caught and printed
by the calculator loop at line 272. -/
def pyLookupName (nameId : String) : Except PyErr PyVal :=
  match safe_dict.find? (fun p => p.1 == nameId) with
  | some p => .ok p.2
  | none =>
    if nameId = "__builtins__" then .ok .vnone
    else .error (.nameError nameId)

/-- The Python type of a value, as `type(v).__name__`. -/
def PyVal.pyTypeName : PyVal → String
  | .vint _ => "int"
  | .vfloat _ => "float"
  | .vstr _ => "str"
  | .vtype _ => "type"
  | .vbuiltin _ => "builtin_function_or_method"
  | .vnone => "NoneType"

/-- Attribute access `obj.attr` under `eval`: the two namespace
dictionaries play no role here, which is what makes the sandbox
escapable.  The `__class__` attribute, present on every Python object,
is modelled; the many further real attributes (`__base__`,
`__subclasses__`, ...) could only widen what evaluation exposes. -/
def pyGetAttr (v : PyVal) (attrId : String) : Except PyErr PyVal :=
  if attrId = "__class__" then .ok (.vtype v.pyTypeName)
  else .error (.attributeError attrId)

/-- Conversion of an int to a float, exact for magnitudes up to 2^53
(conservative: every conversion the theorems perform is in range). -/
def intToFloat (n : Int) : Except PyErr ℚ :=
  if n.natAbs ≤ 2 ^ 53 then .ok (intCastQ n) else .error (.unmodeled "float")

/-- Numeric argument coercion of the math functions: ints convert to
float, floats pass through, anything else raises `TypeError`. -/
def PyVal.toFloat : PyVal → Except PyErr ℚ
  | .vint n => intToFloat n
  | .vfloat q => .ok q
  | _ => .error .typeError

/-- `math.gcd(*args)`: every argument must be an `int`; the result is
the nonnegative gcd of their absolute values (`0` for no arguments). -/
def gcdArgs : List PyVal → Except PyErr Nat
  | [] => .ok 0
  | .vint n :: rest => (gcdArgs rest).map (fun g => Nat.gcd g n.natAbs)
  | _ :: _ => .error .typeError

/-- Application of one allow-listed function.  Exact cases follow
CPython; float results with no exact value here stop at `unmodeled`:
* `pow` is the builtin: two int arguments with nonnegative exponent
  give an exact int (a negative exponent gives a float);
* `sqrt` of a nonnegative perfect-square int gives the exact root;
* `fabs`, `floor`, `ceil`, `trunc`, `factorial`, `gcd` are exact;
* `sin`, `cos`, `tan` are exact at 0; `log`, `log10` at 1, and raise
  `ValueError` (math domain error) at nonpositive arguments. -/
def applyBuiltin (fname : String) (args : List PyVal) : Except PyErr PyVal :=
  if fname = "pow" then
    match args with
    | [.vint a, .vint b] =>
      if 0 ≤ b then .ok (.vint (a ^ b.toNat)) else .error (.unmodeled "pow")
    | [_, _] => .error (.unmodeled "pow")
    | _ => .error (.unmodeled "pow arity")
  else if fname = "sqrt" then
    match args with
    | [v] => do
      let q ← v.toFloat
      if q.num < 0 then .error .valueError
      else if q.den = 1 ∧ (isqrt q.num.toNat) ^ 2 = q.num.toNat ∧ q.num ≤ 2 ^ 52 then
        .ok (.vfloat (intCastQ (isqrt q.num.toNat)))
      else .error (.unmodeled "sqrt")
    | _ => .error .typeError
  else if fname = "fabs" then
    match args with
    | [v] => do
      let q ← v.toFloat
      .ok (.vfloat (absQ q))
    | _ => .error .typeError
  else if fname = "gcd" then
    (gcdArgs args).map (fun g => .vint (g : Int))
  else if fname = "floor" then
    match args with
    | [.vint n] => .ok (.vint n)
    | [.vfloat q] => .ok (.vint (floorQ q))
    | _ => .error .typeError
  else if fname = "ceil" then
    match args with
    | [.vint n] => .ok (.vint n)
    | [.vfloat q] => .ok (.vint (ceilQ q))
    | _ => .error .typeError
  else if fname = "trunc" then
    match args with
    | [.vint n] => .ok (.vint n)
    | [.vfloat q] => .ok (.vint (truncQ q))
    | _ => .error .typeError
  else if fname = "sin" ∨ fname = "tan" then
    match args with
    | [v] => do
      let q ← v.toFloat
      if q = 0 then .ok (.vfloat 0) else .error (.unmodeled fname)
    | _ => .error .typeError
  else if fname = "cos" then
    match args with
    | [v] => do
      let q ← v.toFloat
      if q = 0 then .ok (.vfloat 1) else .error (.unmodeled fname)
    | _ => .error .typeError
  else if fname = "log" ∨ fname = "log10" then
    match args with
    | [v] => do
      let q ← v.toFloat
      if q ≤ 0 then .error .valueError
      else if q = 1 then .ok (.vfloat 0)
      else .error (.unmodeled fname)
    | _ => .error (.unmodeled fname)
  else if fname = "factorial" then
    match args with
    | [.vint n] =>
      if n < 0 then .error .valueError else .ok (.vint (n.toNat.factorial : Int))
    | _ => .error .typeError
  else .error (.unmodeled fname)

/-- Calling a value: only the allow-listed builtins are callable in
this fragment; calling anything else raises `TypeError`. -/
def pyCall (fv : PyVal) (args : List PyVal) : Except PyErr PyVal :=
  match fv with
  | .vbuiltin fname => applyBuiltin fname args
  | _ => .error .typeError

/-- Python `+`: exact int addition; float addition exact when both
operands are integer-valued doubles with a sum of magnitude at most
2^53 (every addition the theorems perform); string concatenation. -/
def pyAdd (a b : PyVal) : Except PyErr PyVal :=
  match a, b with
  | .vint m, .vint n => .ok (.vint (m + n))
  | .vstr s, .vstr t => .ok (.vstr (s ++ t))
  | _, _ => do
    let qa ← a.toFloat
    let qb ← b.toFloat
    if qa.den = 1 ∧ qb.den = 1 ∧ (qa.num + qb.num).natAbs ≤ 2 ^ 53 then
      .ok (.vfloat (intCastQ (qa.num + qb.num)))
    else .error (.unmodeled "add")

/-- Expressions of the evaluated fragment: literals, names, one- and
two-argument calls (the arities the allow-listed scenario uses),
attribute access, and addition. -/
inductive PyExpr where
  | intLit (n : Int)
  | strLit (s : String)
  | nameRef (nameId : String)
  | call1 (f : PyExpr) (a : PyExpr)
  | call2 (f : PyExpr) (a b : PyExpr)
  | attrGet (obj : PyExpr) (attrId : String)
  | addOp (a b : PyExpr)
deriving DecidableEq, Repr

/-- The identifiers occurring in an expression (names and attribute
names - both are NAME tokens of the Python grammar). -/
def PyExpr.identifiers : PyExpr → List String
  | .intLit _ => []
  | .strLit _ => []
  | .nameRef n => [n]
  | .call1 f a => f.identifiers ++ a.identifiers
  | .call2 f a b => f.identifiers ++ a.identifiers ++ b.identifiers
  | .attrGet o aId => o.identifiers ++ [aId]
  | .addOp a b => a.identifiers ++ b.identifiers

/-- Evaluation of an expression under
`eval(expression, dict with __builtins__ None, safe_dict)` (line 270). -/
def pyEval : PyExpr → Except PyErr PyVal
  | .intLit n => .ok (.vint n)
  | .strLit s => .ok (.vstr s)
  | .nameRef nameId => pyLookupName nameId
  | .call1 f a => do
    let fv ← pyEval f
    let av ← pyEval a
    pyCall fv [av]
  | .call2 f a b => do
    let fv ← pyEval f
    let av ← pyEval a
    let bv ← pyEval b
    pyCall fv [av, bv]
  | .attrGet obj attrId => do
    let v ← pyEval obj
    pyGetAttr v attrId
  | .addOp a b => do
    let av ← pyEval a
    let bv ← pyEval b
    pyAdd av bv

/-- `"sqrt(16) + pow(2,3)"` of the spec scenario, parsed. -/
def exprScenario : PyExpr :=
  .addOp (.call1 (.nameRef "sqrt") (.intLit 16))
    (.call2 (.nameRef "pow") (.intLit 2) (.intLit 3))

/-- The spec scenario's rejected expression, parsed:
a call of the name `__import__` on the string literal `'os'`. -/
def exprDunderImport : PyExpr :=
  .call1 (.nameRef "__import__") (.strLit "os")

/-- `"(1).__class__"`, parsed: attribute access on an int literal. -/
def exprEscape : PyExpr :=
  .attrGet (.intLit 1) "__class__"

/-! ### Action dispatch (`execute_action`, lines 299-344) -/

/-- The dictionary keys `execute_action` reads from the selected entry;
`clipboard` carries the already-stringified content. -/
structure ActionItem where
  type : Option String
  path : Option String
  app_path : Option String
  name : Option String
  clipboard : Option String
deriving DecidableEq, Repr

/-- The injected OS environment: each call either succeeds or raises an
exception, whose message is the `String`.  `pyperclipAvailable` models
whether the pyperclip import at lines 303-306 succeeded. -/
structure SysBehavior where
  pyperclipAvailable : Bool
  clipboardCopy : String → Except String Unit
  popen : List (Option String) → Except String Unit
  openUrl : Option String → Except String Unit
  startfile : Option String → Except String Unit

/-- How the primary effect of one dispatch ends. -/
inductive DispatchOutcome where
  | launched
  | cancelled
  | failed (cause : String)
  | noop
  | blocked
deriving DecidableEq, Repr

/-- One hex digit (uppercase). -/
def hexDigit (d : Nat) : Char :=
  if d < 10 then Char.ofNat (48 + d) else Char.ofNat (55 + d)

/-- Two-digit uppercase hex of a byte. -/
def hexByte (n : Nat) : String :=
  ⟨[hexDigit (n / 16 % 16), hexDigit (n % 16)]⟩

/-- `urllib.parse.quote_plus` on one character: alphanumerics and
`_.-~` pass through, a space becomes `+`, the rest percent-encode
(ASCII; multi-byte UTF-8 encoding is not exercised here). -/
def quotePlusChar (c : Char) : String :=
  if c.isAlphanum || c = '_' || c = '.' || c = '-' || c = '~' then String.singleton c
  else if c = ' ' then "+"
  else "%" ++ hexByte c.toNat

/-- `urllib.parse.quote_plus` over the phrase. -/
def quote_plus (s : String) : String :=
  s.data.foldl (fun acc c => acc ++ quotePlusChar c) ""

/-- `path.format(encoded_query)` for templates with zero or one
positional placeholder; with two or more placeholders the single
argument raises `IndexError` (caught by the surrounding try-block). -/
def pyFormat (template arg : String) : Except String String :=
  match template.splitOn "\x7b\x7d" with
  | [t] => .ok t
  | [t1, t2] => .ok (t1 ++ arg ++ t2)
  | _ => .error "tuple index out of range"

/-- The try-block of lines 323-339: the primary effect, by action
type.  Returns the `Except` value of the block together with the input
lines left unconsumed (an exception leaves the rest of stdin alone).
An unknown or missing type matches no branch and falls through
silently (`noop`); `blocked` models `input()` waiting with no scripted
line left. -/
def primaryEffect (sys : SysBehavior) (a : ActionItem) (inputs : List String) :
    Except String DispatchOutcome × List String :=
  match a.type with
  | some "program" => ((sys.popen [a.path]).map (fun _ => .launched), inputs)
  | some "url" => ((sys.openUrl a.path).map (fun _ => .launched), inputs)
  | some "file" => ((sys.startfile a.path).map (fun _ => .launched), inputs)
  | some "folder" => ((sys.startfile a.path).map (fun _ => .launched), inputs)
  | some "file_with_app" => ((sys.popen [a.app_path, a.path]).map (fun _ => .launched), inputs)
  | some "search_with_app" =>
    match inputs with
    | [] => (.ok .blocked, [])
    | phrase :: rest =>
      if pyStrip phrase = "" then (.ok .cancelled, rest)
      else
        match a.path with
        | none => (.error "NoneType object has no attribute format", rest)
        | some p =>
          match pyFormat p (quote_plus phrase) with
          | .error e => (.error e, rest)
          | .ok finalUrl => ((sys.popen [a.app_path, some finalUrl]).map (fun _ => .launched), rest)
  | _ => (.ok .noop, inputs)

/-- What one call of `execute_action` produced: the clipboard pre-step
report (`none` when the entry carries no clipboard content, `some true`
after a successful copy, `some false` when pyperclip is missing), the
outcome of the primary effect, and the unconsumed input lines. -/
structure DispatchResult where
  clipboardCopied : Option Bool
  outcome : DispatchOutcome
  rest : List String
deriving DecidableEq, Repr

/-- The tail of `execute_action`: run the try-block and catch every
exception it raises, reporting it as a non-fatal failure
(lines 341-344 log and print, then fall off the function). -/
def finishDispatch (sys : SysBehavior) (a : ActionItem) (inputs : List String)
    (clip : Option Bool) : DispatchResult :=
  match primaryEffect sys a inputs with
  | (.ok o, rest) => ⟨clip, o, rest⟩
  | (.error e, rest) => ⟨clip, .failed e, rest⟩

/-- `execute_action` (lines 299-344).  The clipboard pre-step of lines
314-320 runs OUTSIDE the try-block, so an exception raised by
`pyperclip.copy` propagates to the caller - modelled by the outer
`Except`; nothing in `run_launcher_mode` or `main` catches it. -/
def execute_action (sys : SysBehavior) (a : ActionItem) (inputs : List String) :
    Except String DispatchResult :=
  match a.clipboard with
  | some content =>
    if sys.pyperclipAvailable then
      match sys.clipboardCopy content with
      | .error e => .error e
      | .ok _ => .ok (finishDispatch sys a inputs (some true))
    else .ok (finishDispatch sys a inputs (some false))
  | none => .ok (finishDispatch sys a inputs none)

/-! ### The other mode loops and the top-level state machine (`main`)

The transform, calculator and date loops only leave their mode through
`process_global_commands`; their mode-local work (clipboard text
transformation, expression printing, date formatting) does not affect
control flow and is elided here.  pyperclip is assumed importable (when
it is not, transform and date return to the launcher immediately).
Their loops are driven by the same scripted input list, with a fuel
bound standing in for unbounded iteration; `none` means the script ran
out (the real program would keep waiting for input). -/

/-- The inner width-reading loop of the text-wrap operation
(lines 235-240): retries until a positive integer is entered. -/
def readWrapWidth : List String → Option (List String)
  | [] => none
  | w :: rest =>
    match pyParseInt w with
    | some v => if v ≤ 0 then readWrapWidth rest else some rest
    | none => readWrapWidth rest

/-- `run_transform_mode` (lines 197-252): global command, else a
numbered choice 1-8; choice 7 (text wrap) additionally reads a width;
every other path re-prompts. -/
def run_transform_mode (fuel : Nat) (inputs : List String) : Option (Mode × List String) :=
  match fuel with
  | 0 => none
  | fuel' + 1 =>
    match inputs with
    | [] => none
    | choiceStr :: rest =>
      match process_global_commands choiceStr with
      | some m => some (m, rest)
      | none =>
        match pyParseInt choiceStr with
        | none => run_transform_mode fuel' rest
        | some choice =>
          if choice < 1 ∨ 8 < choice then run_transform_mode fuel' rest
          else if choice = 7 then
            match readWrapWidth rest with
            | none => none
            | some restAfter => run_transform_mode fuel' restAfter
          else run_transform_mode fuel' rest

/-- `run_calculator_mode` (lines 254-272): the input line is stripped,
offered to the global router, then an empty line, the help token `>h`,
and an ordinary expression (evaluated and printed, every exception
caught at line 272) all re-prompt. -/
def run_calculator_mode (fuel : Nat) (inputs : List String) : Option (Mode × List String) :=
  match fuel with
  | 0 => none
  | fuel' + 1 =>
    match inputs with
    | [] => none
    | exprRaw :: rest =>
      let expression := pyStrip exprRaw
      match process_global_commands expression with
      | some m => some (m, rest)
      | none =>
        if expression = "" then run_calculator_mode fuel' rest
        else if pyLower expression = ">h" then run_calculator_mode fuel' rest
        else run_calculator_mode fuel' rest

/-- `run_date_mode` (lines 274-297): global command, else a numbered
choice that copies a formatted date; every path re-prompts. -/
def run_date_mode (fuel : Nat) (inputs : List String) : Option (Mode × List String) :=
  match fuel with
  | 0 => none
  | fuel' + 1 =>
    match inputs with
    | [] => none
    | choiceStr :: rest =>
      match process_global_commands choiceStr with
      | some m => some (m, rest)
      | none => run_date_mode fuel' rest

/-- How a terminating run of the mode loop ends: the `sys.exit(0)`
call of the exit mode, or an uncaught exception escaping dispatch
(the clipboard pre-step of `execute_action` runs outside its
try-block, see C8) - nothing in the loop or in `main` catches it, so
CPython prints a traceback and terminates the process. -/
inductive LoopEnd where
  | exitZero
  | uncaught (exn : String)
deriving DecidableEq, Repr

/-- The process exit status of each loop ending: `sys.exit(0)` gives
status 0; the interpreter reports status 1 for an uncaught exception. -/
def LoopEnd.exitStatus : LoopEnd → Nat
  | .exitZero => 0
  | .uncaught _ => 1

/-- The `while True` mode loop of `main` (lines 369-378): run the
current mode until it returns the next one; the mode string 'exit'
reaches `sys.exit(0)`.  A resolved launcher selection runs its action
through `execute_action` and then returns 'exit' (single-shot
semantics); a dispatch exception that escapes `execute_action` is
caught nowhere and aborts the run (`uncaught`).  The action keys of
the selected entry's dict are not part of the validated menu model:
`actionOf` supplies them (in the program the same dict carries both
the menu keys and the action keys), and `sys` is the injected OS
environment.  `none` means fuel or input ran out while the program
was still waiting. -/
def machineRun (sys : SysBehavior) (actionOf : MenuEntry → ActionItem)
    (entries : List MenuEntry) : Nat → Mode → List String → Option LoopEnd
  | 0, _, _ => none
  | fuel + 1, m, inputs =>
    match m with
    | .exit => some .exitZero
    | .launcher =>
      let r := run_launcher_mode entries inputs
      match r.result with
      | .blocked => none
      | .toMode m2 => machineRun sys actionOf entries fuel m2 r.rest
      | .actionExit e =>
        match execute_action sys (actionOf e) r.rest with
        | .error exn => some (.uncaught exn)
        | .ok dr =>
          if dr.outcome = .blocked then none
          else machineRun sys actionOf entries fuel .exit dr.rest
      | .mistakeExit => machineRun sys actionOf entries fuel .exit r.rest
    | .transform =>
      match run_transform_mode fuel inputs with
      | none => none
      | some (m2, rest) => machineRun sys actionOf entries fuel m2 rest
    | .calculator =>
      match run_calculator_mode fuel inputs with
      | none => none
      | some (m2, rest) => machineRun sys actionOf entries fuel m2 rest
    | .date =>
      match run_date_mode fuel inputs with
      | none => none
      | some (m2, rest) => machineRun sys actionOf entries fuel m2 rest

/-- `main` (lines 346-378), returning the process exit status when the
run terminates.  After loading, `if not config: sys.exit(1)` treats
both the `None` of a load failure and a successfully validated EMPTY
config as falsy; otherwise the config is sorted by id and the state
machine starts in launcher mode: it exits with status 0 through
`sys.exit(0)`, or with status 1 when an uncaught dispatch exception
aborts the interpreter. -/
def main (sys : SysBehavior) (actionOf : MenuEntry → ActionItem)
    (pr : ParseResult) (fuel : Nat) (inputs : List String) : Option Nat :=
  match load_and_validate_config pr with
  | none => some 1
  | some data =>
    if data.isEmpty then some 1
    else (machineRun sys actionOf ((sortByNumer data).map RawItem.toEntry)
        fuel .launcher inputs).map LoopEnd.exitStatus

/-! ### Concrete fixtures used by the claim theorems and witnesses -/

/-- The two-entry config of the C4 scenario: ids 1 and 2, shortcuts
"a" and absent. -/
def demoC4 : List MenuEntry :=
  [⟨1, "one", "c", some "a"⟩, ⟨2, "two", "c", none⟩]

/-- A validated one-entry config whose single shortcut is the numeric
string "2", carried by the entry with id 1. -/
def demoNumericShortcut : List MenuEntry :=
  [⟨1, "one", "c", some "2"⟩]

/-- A raw element that passes validation (id `n`, no shortcut). -/
def plainRaw (n : Int) : RawItem :=
  ⟨some (.jint n), some (.jstr "app"), some (.jstr "c"), none⟩

/-- An entry whose 40-character shortcut makes the bracketed shortcut
plus prefix wider than the whole column. -/
def wideShortcutEntry : MenuEntry :=
  ⟨1, "x", "cat", some "0123456789012345678901234567890123456789"⟩

/-- An entry with a long name and a short shortcut (the common case). -/
def longNameEntry : MenuEntry :=
  ⟨1, "Mozilla Firefox is a very long application name", "cat", some "ff"⟩

/-- An environment whose clipboard copy raises (pyperclip is installed
but finds no copy mechanism - its documented behaviour on a bare
system) while every other OS call succeeds. -/
def sysClipBoom : SysBehavior :=
  ⟨true, fun _ => .error "PyperclipException: could not find a copy mechanism",
   fun _ => .ok (), fun _ => .ok (), fun _ => .ok ()⟩

/-- An environment in which every OS-level spawn/open call fails. -/
def sysAllFail : SysBehavior :=
  ⟨true, fun _ => .ok (), fun _ => .error "spawn failed",
   fun _ => .error "open failed", fun _ => .error "start failed"⟩

/-- An environment in which every OS call succeeds. -/
def sysOk : SysBehavior :=
  ⟨true, fun _ => .ok (), fun _ => .ok (), fun _ => .ok (), fun _ => .ok ()⟩

/-- Action keys for entries whose dicts carry none: dispatch then
matches no branch and falls through silently. -/
def actionOfNone : MenuEntry → ActionItem :=
  fun _ => ⟨none, none, none, none, none⟩

/-- A `search_with_app` action (no clipboard content). -/
def searchAction : ActionItem :=
  ⟨some "search_with_app", some "https://search.example/?q=\x7b\x7d",
   some "browser.exe", some "Search", none⟩

/-- A program action that also carries clipboard content. -/
def programClipAction : ActionItem :=
  ⟨some "program", some "app.exe", none, some "App", some "some text"⟩

/-- A raw element that passes validation with a shortcut. -/
def rawWithShortcut (n : Int) (s : String) : RawItem :=
  ⟨some (.jint n), some (.jstr "app"), some (.jstr "c"), some (.jstr s)⟩

/-! ## Theorems -/

/-! ### C1: the calculator's restricted evaluation -/

/-- Claim C1 (code bug).  The positive half of the claim holds:
`sqrt(16) + pow(2,3)` evaluates to the float `12.0`, and the name
lookup of `__import__('os')` fails with `NameError` because the only
namespaces are `safe_dict` and a globals dict binding `__builtins__`
to `None`.  But the allow-list does not bound what evaluation exposes:
the expression `(1).__class__` contains only the non-whitelisted
identifier `__class__`, yet evaluates - attribute access never
consults the namespaces - to the type object `int`, a value outside
the allow-list and the first step of the standard escape to
`object.__subclasses__()` and OS capabilities.  The spec's own design
note demands a sandboxed parser precisely to close this surface. -/
theorem c1_calculator_sandbox :
    pyEval exprScenario = .ok (.vfloat 12)
    ∧ pyEval exprDunderImport = .error (.nameError "__import__")
    ∧ "__class__" ∉ safe_dict.map Prod.fst
    ∧ PyExpr.identifiers exprEscape = ["__class__"]
    ∧ pyEval exprEscape = .ok (.vtype "int")
    ∧ (.vtype "int" : PyVal) ∉ safe_dict.map Prod.snd := by
  refine ⟨by decide, by decide, by decide, by decide, by decide, by decide⟩

/-! ### C2: fail-fast validation -/

/-- Scanning an appended list runs the scan of the first part and, on
success, continues from its final state. -/
theorem validateScan_append (pre l : List RawItem) :
    ∀ (sN : List Int) (sS : List String) (i : Nat),
      validateScan sN sS i (pre ++ l) =
        (validateScan sN sS i pre).bind (fun st => validateScan st.1 st.2.1 st.2.2 l) := by
  induction pre with
  | nil => intro sN sS i; rfl
  | cons item rest ih =>
    intro sN sS i
    simp only [List.cons_append, validateScan]
    cases elementError sN sS i item with
    | some e => rfl
    | none => exact ih _ _ _

/-- A successful scan advances the position by exactly the number of
elements scanned. -/
theorem validateScan_pos (l : List RawItem) :
    ∀ sN sS i st, validateScan sN sS i l = .ok st → st.2.2 = i + l.length := by
  induction l with
  | nil =>
    intro sN sS i st h
    simp only [validateScan] at h
    injection h with h
    subst h
    rfl
  | cons item rest ih =>
    intro sN sS i st h
    simp only [validateScan] at h
    cases he : elementError sN sS i item with
    | some e => rw [he] at h; exact absurd h (by simp)
    | none =>
      rw [he] at h
      have := ih _ _ _ _ h
      simp only [List.length_cons]
      omega

/-- Claim C2, counterexample to the position report.  On the config
whose elements both carry id 7, validation fails at the second element
(a duplicate id), but the error message - "Numer '7' jest
zduplikowany." - carries the duplicated id value and no element
position at all, while the claim requires the 1-based position (here 2)
of the offending element to be reported. -/
theorem c2_counterexample :
    validateConfig [plainRaw 7, plainRaw 7] = .error (.duplicateNumer 7)
    ∧ ConfigError.reportedPos (.duplicateNumer 7) = none
    ∧ ConfigError.reportedPos (.duplicateNumer 7) ≠ some 2 := by
  refine ⟨by decide, rfl, by decide⟩

/-- Claim C2 (amended).  For every config that decomposes into a
passing prefix followed by an offending element, loading fails fast:
the error is exactly the one describing that first offending element
(independent of everything after it), the position `i` such an error
carries is the element's true 1-based position, and no entries are
returned.  (Position is reported only by the category and id shape
errors; duplicate-id, bad-shortcut and duplicate-shortcut errors cite
the id or the value instead - that is the correction.) -/
theorem c2_validation_failfast (pre : List RawItem) (bad : RawItem) (rest : List RawItem)
    (sN : List Int) (sS : List String) (i : Nat) (e : ConfigError)
    (hpre : validateScan [] [] 1 pre = .ok (sN, sS, i))
    (hbad : elementError sN sS i bad = some e) :
    i = pre.length + 1
    ∧ validateConfig (pre ++ bad :: rest) = .error e
    ∧ load_and_validate_config (.parsed (pre ++ bad :: rest)) = none := by
  have hi : i = pre.length + 1 := by
    have := validateScan_pos pre [] [] 1 (sN, sS, i) hpre
    simpa [Nat.add_comm] using this
  have hv : validateConfig (pre ++ bad :: rest) = .error e := by
    unfold validateConfig
    rw [validateScan_append pre (bad :: rest) [] [] 1, hpre]
    simp only [Except.bind]
    simp only [validateScan, hbad]
    rfl
  refine ⟨hi, hv, ?_⟩
  simp only [load_and_validate_config, hv]

/-- Witness for C2: a duplicate id 1 at position 2, behind a passing
first element and in front of an arbitrary junk element. -/
theorem c2_witness :
    validateConfig [plainRaw 1, plainRaw 1, (⟨none, none, none, none⟩ : RawItem)]
      = .error (.duplicateNumer 1)
    ∧ load_and_validate_config
        (.parsed [plainRaw 1, plainRaw 1, (⟨none, none, none, none⟩ : RawItem)]) = none := by
  have h := c2_validation_failfast [plainRaw 1] (plainRaw 1) [⟨none, none, none, none⟩]
    [1] [] 2 (.duplicateNumer 1) (by decide) (by decide)
  exact ⟨h.2.1, h.2.2⟩

/-! ### C3: a valid config loads sorted, with unique ids and shortcuts -/

/-- What passing the per-element check says about the element: its id
is an int not yet seen, and its shortcut (if any) is not yet seen. -/
theorem elementError_none (sN : List Int) (sS : List String) (i : Nat) (it : RawItem)
    (h : elementError sN sS i it = none) :
    it.numerInt = some it.numerKey ∧ it.numerKey ∉ sN
    ∧ ∀ s, it.skrotyStr = some s → s ∉ sS := by
  unfold elementError at h
  split at h
  · exact absurd h (by simp)
  · cases hn : it.numerInt with
    | none => rw [hn] at h; exact absurd h (by simp)
    | some n =>
      rw [hn] at h
      simp only at h
      have hkey : it.numerKey = n := by simp [RawItem.numerKey, hn]
      by_cases hmem : n ∈ sN
      · rw [if_pos hmem] at h; exact absurd h (by simp)
      · rw [if_neg hmem] at h
        cases hs : it.skroty with
        | none =>
          refine ⟨by rw [hkey], by rw [hkey]; exact hmem, ?_⟩
          intro s hss
          simp [RawItem.skrotyStr, hs] at hss
        | some v =>
          rw [hs] at h
          cases v with
          | jstr s =>
            simp only at h
            by_cases hse : s = ""
            · rw [if_pos hse] at h; exact absurd h (by simp)
            · rw [if_neg hse] at h
              by_cases hss : s ∈ sS
              · rw [if_pos hss] at h; exact absurd h (by simp)
              · refine ⟨by rw [hkey], by rw [hkey]; exact hmem, ?_⟩
                intro t ht
                simp only [RawItem.skrotyStr, hs] at ht
                injection ht with ht
                subst ht
                exact hss
          | jint m => simp at h
          | jbool b => simp at h
          | jother => simp at h

/-- A successful scan means: the ids of the scanned elements are
pairwise distinct and avoid the already-seen ids, and likewise for the
present shortcuts. -/
theorem validateScan_keys (l : List RawItem) :
    ∀ sN sS i st, validateScan sN sS i l = .ok st →
      ((l.map RawItem.numerKey).Nodup ∧ ∀ k ∈ l.map RawItem.numerKey, k ∉ sN)
      ∧ ((l.filterMap RawItem.skrotyStr).Nodup
          ∧ ∀ s ∈ l.filterMap RawItem.skrotyStr, s ∉ sS) := by
  induction l with
  | nil => intro sN sS i st h; simp
  | cons it rest ih =>
    intro sN sS i st h
    simp only [validateScan] at h
    cases he : elementError sN sS i it with
    | some e => rw [he] at h; exact absurd h (by simp)
    | none =>
      rw [he] at h
      obtain ⟨hnum, hkeyN, hshort⟩ := elementError_none _ _ _ _ he
      have hupN : updateSeenN sN it = it.numerKey :: sN := by
        simp [updateSeenN, hnum]
      obtain ⟨⟨hnd, hnin⟩, hsd, hsin⟩ := ih _ _ _ _ h
      rw [hupN] at hnin
      refine ⟨⟨?_, ?_⟩, ?_⟩
      · simp only [List.map_cons, List.nodup_cons]
        exact ⟨fun hmem => (hnin _ hmem) (List.mem_cons_self _ _), hnd⟩
      · intro k hk
        simp only [List.map_cons, List.mem_cons] at hk
        rcases hk with rfl | hk
        · exact hkeyN
        · exact fun hkin => (hnin _ hk) (List.mem_cons_of_mem _ hkin)
      · cases hs : it.skrotyStr with
        | none =>
          have hupS : updateSeenS sS it = sS := by simp [updateSeenS, hs]
          rw [hupS] at hsin
          simp only [List.filterMap_cons, hs]
          exact ⟨hsd, hsin⟩
        | some sc =>
          have hupS : updateSeenS sS it = sc :: sS := by simp [updateSeenS, hs]
          rw [hupS] at hsin
          simp only [List.filterMap_cons, hs]
          refine ⟨List.nodup_cons.mpr
            ⟨fun hmem => (hsin _ hmem) (List.mem_cons_self _ _), hsd⟩, ?_⟩
          intro s hss
          rcases List.mem_cons.mp hss with rfl | hss2
          · exact hshort _ hs
          · exact fun hsin2 => (hsin _ hss2) (List.mem_cons_of_mem _ hsin2)

/-- Claim C3.  For every config that validates, the load pipeline
(validation at lines 54-96 followed by the id sort of line 367)
delivers a permutation of the entries whose id sequence is strictly
ascending - sorted with pairwise-distinct ids - and whose present
shortcuts are pairwise distinct. -/
theorem c3_load_sorted (data : List RawItem) (h : validateConfig data = .ok ()) :
    (sortByNumer data).Perm data
    ∧ ((sortByNumer data).map RawItem.numerKey).Pairwise (· < ·)
    ∧ ((sortByNumer data).filterMap RawItem.skrotyStr).Nodup := by
  have hscan : ∃ st, validateScan [] [] 1 data = .ok st := by
    unfold validateConfig at h
    cases hv : validateScan [] [] 1 data with
    | ok st => exact ⟨st, rfl⟩
    | error e => rw [hv] at h; exact absurd h (by simp [Except.map])
  obtain ⟨st, hst⟩ := hscan
  have hkeys := validateScan_keys data [] [] 1 st hst
  have hperm : (sortByNumer data).Perm data := List.mergeSort_perm data _
  have hsorted : (sortByNumer data).Pairwise
      (fun a b => decide (a.numerKey ≤ b.numerKey) = true) := by
    unfold sortByNumer
    exact List.sorted_mergeSort
      (fun a b c hab hbc => by
        simp only [decide_eq_true_eq] at *
        exact le_trans hab hbc)
      (fun a b => by
        simp only [Bool.or_eq_true, decide_eq_true_eq]
        exact le_total _ _)
      data
  have hle : ((sortByNumer data).map RawItem.numerKey).Pairwise (· ≤ ·) := by
    rw [List.pairwise_map]
    exact hsorted.imp (fun hab => by simpa using hab)
  have hnd : ((sortByNumer data).map RawItem.numerKey).Nodup :=
    ((hperm.map RawItem.numerKey).symm).nodup hkeys.1.1
  refine ⟨hperm, ?_, ?_⟩
  · exact (hle.and hnd).imp (fun hab => lt_of_le_of_ne hab.1 hab.2)
  · exact ((hperm.filterMap RawItem.skrotyStr).symm).nodup hkeys.2.1

/-- Witness for C3: a two-entry config given in descending id order. -/
theorem c3_witness :
    validateConfig [plainRaw 2, rawWithShortcut 1 "x"] = .ok ()
    ∧ (sortByNumer [plainRaw 2, rawWithShortcut 1 "x"]).Perm [plainRaw 2, rawWithShortcut 1 "x"]
    ∧ ((sortByNumer [plainRaw 2, rawWithShortcut 1 "x"]).map RawItem.numerKey).Pairwise (· < ·)
    ∧ ((sortByNumer [plainRaw 2, rawWithShortcut 1 "x"]).filterMap RawItem.skrotyStr).Nodup := by
  have h := c3_load_sorted [plainRaw 2, rawWithShortcut 1 "x"] (by decide)
  exact ⟨by decide, h.1, h.2.1, h.2.2⟩

/-! ### C4: selection resolution -/

/-- Claim C4, counterexample.  The claim says a token that parses as an
integer is matched by id (and by shortcut only otherwise).  But the
code falls back to the shortcut comparison when no entry carries the
parsed id: on a validated config whose entry 1 has the numeric
shortcut "2", the input "2" resolves to entry 1, where the claim's
resolution rule yields NotFound. -/
theorem c4_counterexample :
    resolveEntry demoNumericShortcut "2" = some ⟨1, "one", "c", some "2"⟩
    ∧ resolveClaimC4 demoNumericShortcut "2" = none
    ∧ validateConfig [rawWithShortcut 1 "2"] = .ok () := by
  refine ⟨by decide, by decide, by decide⟩

/-- Claim C4 (amended).  Resolution: an integer token is matched by id,
falling back to the shortcut match when no entry carries that id; a
non-integer token is matched by shortcut; the empty line and unmatched
tokens yield NotFound.  The claim's own scenario is unaffected: with
entries 1 (shortcut "a") and 2 (no shortcut), "a" resolves to entry 1,
"2" to entry 2, and "x" to NotFound. -/
theorem c4_resolution :
    (∀ (config : List MenuEntry) (s : String), resolveEntry config s = resolveAmended config s)
    ∧ resolveEntry demoC4 "a" = some ⟨1, "one", "c", some "a"⟩
    ∧ resolveEntry demoC4 "2" = some ⟨2, "two", "c", none⟩
    ∧ resolveEntry demoC4 "x" = none := by
  refine ⟨?_, by decide, by decide, by decide⟩
  intro config s
  unfold resolveEntry resolveAmended
  by_cases hs : s = ""
  · simp [hs]
  · simp only [if_neg hs]
    cases pyParseInt s with
    | none => rfl
    | some k =>
      simp only
      cases config.find? (fun it => it.numer == k) with
      | none => rfl
      | some it => rfl

/-! ### C5 and C10: the mistake counter -/

/-- An unresolved input line (no global command, no selection) below
the mistake limit: the loop consumes it, logs the warning numbered
with the new counter value, and continues with the counter incremented
by one. -/
theorem launcher_step_mistake (config : List MenuEntry) (c : Nat) (s : String)
    (rest : List String) (hc : c < MAX_MISTAKES)
    (hg : process_global_commands s = none) (hr : resolveEntry config s = none) :
    runLauncherFrom config c (s :: rest) =
      ⟨(runLauncherFrom config (c + 1) rest).result,
       (runLauncherFrom config (c + 1) rest).rest,
       .mistakeWarning s (c + 1) :: (runLauncherFrom config (c + 1) rest).logs⟩ := by
  simp [runLauncherFrom, hc, hg, hr]

/-- A script of nothing but unresolved lines that exactly exhausts the
mistake budget drives the session to the mistake exit, consuming all
input and logging warnings numbered `c+1, ..., MAX_MISTAKES`. -/
theorem launcher_all_mistakes (config : List MenuEntry) :
    ∀ (inputs : List String) (c : Nat), c + inputs.length = MAX_MISTAKES →
      (∀ s ∈ inputs, process_global_commands s = none ∧ resolveEntry config s = none) →
      runLauncherFrom config c inputs =
        ⟨.mistakeExit, [],
         List.zipWith (fun s n => LogEvent.mistakeWarning s n) inputs
           (List.range' (c + 1) inputs.length)⟩ := by
  intro inputs
  induction inputs with
  | nil =>
    intro c hc hall
    simp only [List.length_nil, Nat.add_zero] at hc
    subst hc
    simp [runLauncherFrom]
  | cons s rest ih =>
    intro c hc hall
    have hc5 : c < MAX_MISTAKES := by
      simp only [List.length_cons] at hc; omega
    obtain ⟨hg, hr⟩ := hall s (List.mem_cons_self _ _)
    rw [launcher_step_mistake config c s rest hc5 hg hr]
    have hrec := ih (c + 1) (by simp only [List.length_cons] at hc; omega)
      (fun t ht => hall t (List.mem_cons_of_mem _ ht))
    rw [hrec]
    simp [List.range']

/-- The counter trace starts at the entry value. -/
theorem launcherCounters_head (config : List MenuEntry) (c : Nat) (inputs : List String) :
    (launcherCounters config c inputs).head? = some c := by
  cases inputs with
  | nil => rfl
  | cons s rest =>
    simp only [launcherCounters]
    split
    · cases process_global_commands s with
      | some m => rfl
      | none =>
        cases resolveEntry config s with
        | some e => rfl
        | none => rfl
    · rfl

/-- Every counter value the loop condition sees stays at most
`MAX_MISTAKES`. -/
theorem launcherCounters_le (config : List MenuEntry) :
    ∀ (inputs : List String) (c : Nat), c ≤ MAX_MISTAKES →
      ∀ x ∈ launcherCounters config c inputs, x ≤ MAX_MISTAKES := by
  intro inputs
  induction inputs with
  | nil =>
    intro c hc x hx
    simp only [launcherCounters, List.mem_singleton] at hx
    omega
  | cons s rest ih =>
    intro c hc x hx
    simp only [launcherCounters] at hx
    by_cases h5 : c < MAX_MISTAKES
    · rw [if_pos h5] at hx
      cases hg : process_global_commands s with
      | some m => rw [hg] at hx; simp only [List.mem_singleton] at hx; omega
      | none =>
        rw [hg] at hx
        simp only at hx
        cases hr : resolveEntry config s with
        | some e => rw [hr] at hx; simp only [List.mem_singleton] at hx; omega
        | none =>
          rw [hr] at hx
          simp only [List.mem_cons] at hx
          rcases hx with rfl | hx
          · omega
          · exact ih (c + 1) (by omega) x hx
    · rw [if_neg h5] at hx
      simp at hx
      omega

/-- Claim C5.  The launcher-mode mistake counter: it is 0 on every
(re-)entry (`run_launcher_mode` starts the loop at 0 and the counter
trace starts with 0); it never exceeds `MAX_MISTAKES = 5`; each
unresolved input below the limit increments it by exactly one while a
numbered warning is logged; and a script of `MAX_MISTAKES` unresolved
inputs ends the session with the mistake exit (`main` maps it to the
Exit mode), the last logged event being the warning numbered
`MAX_MISTAKES` - the mistake-limit event recorded in the log file (the
"limit exceeded" banner of line 194 goes to the console only). -/
theorem c5_mistake_counter (config : List MenuEntry) :
    (run_launcher_mode config = runLauncherFrom config 0
      ∧ ∀ inputs, (launcherCounters config 0 inputs).head? = some 0)
    ∧ (∀ inputs c, c ≤ MAX_MISTAKES → ∀ x ∈ launcherCounters config c inputs, x ≤ MAX_MISTAKES)
    ∧ (∀ c s rest, c < MAX_MISTAKES → process_global_commands s = none →
        resolveEntry config s = none →
        runLauncherFrom config c (s :: rest) =
          ⟨(runLauncherFrom config (c + 1) rest).result,
           (runLauncherFrom config (c + 1) rest).rest,
           .mistakeWarning s (c + 1) :: (runLauncherFrom config (c + 1) rest).logs⟩
        ∧ launcherCounters config c (s :: rest) = c :: launcherCounters config (c + 1) rest)
    ∧ (∀ inputs, inputs.length = MAX_MISTAKES →
        (∀ s ∈ inputs, process_global_commands s = none ∧ resolveEntry config s = none) →
        run_launcher_mode config inputs =
          ⟨.mistakeExit, [],
           List.zipWith (fun s n => LogEvent.mistakeWarning s n) inputs
             (List.range' 1 inputs.length)⟩) := by
  refine ⟨⟨rfl, fun inputs => launcherCounters_head config 0 inputs⟩,
    launcherCounters_le config, ?_, ?_⟩
  · intro c s rest hc hg hr
    exact ⟨launcher_step_mistake config c s rest hc hg hr,
      by simp [launcherCounters, hc, hg, hr]⟩
  · intro inputs hlen hall
    unfold run_launcher_mode
    exact launcher_all_mistakes config inputs 0 (by omega) hall

/-- Witness for C5: five consecutive unresolved inputs on the empty
config exhaust the budget and exit, logging warnings 1 through 5. -/
theorem c5_witness :
    run_launcher_mode [] ["z", "z", "z", "z", "z"] =
      ⟨.mistakeExit, [],
       List.zipWith (fun s n => LogEvent.mistakeWarning s n) ["z", "z", "z", "z", "z"]
         (List.range' 1 (["z", "z", "z", "z", "z"] : List String).length)⟩ :=
  (c5_mistake_counter []).2.2.2 ["z", "z", "z", "z", "z"] (by decide) (by decide)

/-- Claim C10.  An empty input line is not a global command and
resolves to nothing, so the launcher counts it as a mistake exactly
like a non-matching token: below the limit it increments the counter
and logs the warning, and `MAX_MISTAKES` consecutive empty lines force
the mistake exit. -/
theorem c10_empty_mistake (config : List MenuEntry) :
    process_global_commands "" = none
    ∧ resolveEntry config "" = none
    ∧ (∀ c rest, c < MAX_MISTAKES →
        runLauncherFrom config c ("" :: rest) =
          ⟨(runLauncherFrom config (c + 1) rest).result,
           (runLauncherFrom config (c + 1) rest).rest,
           .mistakeWarning "" (c + 1) :: (runLauncherFrom config (c + 1) rest).logs⟩)
    ∧ (run_launcher_mode config (List.replicate MAX_MISTAKES "")).result = .mistakeExit := by
  have hg : process_global_commands "" = none := by decide
  have hr : resolveEntry config "" = none := by simp [resolveEntry]
  refine ⟨hg, hr, ?_, ?_⟩
  · intro c rest hc
    exact launcher_step_mistake config c "" rest hc hg hr
  · unfold run_launcher_mode
    rw [launcher_all_mistakes config (List.replicate MAX_MISTAKES "") 0
      (by simp) (fun s hs => by rw [List.eq_of_mem_replicate hs]; exact ⟨hg, hr⟩)]

/-- Witness for C10: the first empty line on the empty config with no
further input counts as mistake number one. -/
theorem c10_witness :
    runLauncherFrom [] 0 [""] = ⟨.blocked, [], [.mistakeWarning "" 1]⟩ :=
  (c10_empty_mistake []).2.2.1 0 [] (by decide)

/-! ### C6: fixed-width cell rendering -/

/-- Length of a string built from a character list. -/
theorem string_length_mk (l : List Char) : String.length ⟨l⟩ = l.length := rfl

/-- Length of Python string repetition. -/
theorem pyRepeat_length (c : Char) (n : Int) : (pyRepeat c n).length = n.toNat := by
  simp [pyRepeat, string_length_mk]

/-- Length of Python left-justification. -/
theorem pyLJust_length (s : String) (w : Nat) : (pyLJust s w).length = max s.length w := by
  unfold pyLJust
  rw [String.length_append]
  simp only [string_length_mk, List.length_replicate]
  omega

/-- Length of the Python slice `s[:k]`. -/
theorem pySliceTo_length (s : String) (k : Int) :
    (pySliceTo s k).length =
      if 0 ≤ k then min k.toNat s.length else s.length - (-k).toNat := by
  unfold pySliceTo
  split
  · simp only [string_length_mk, List.length_take]
    rfl
  · simp only [string_length_mk, List.length_take]
    have : s.length = s.data.length := rfl
    omega

/-- The rendered name occupies `min (name length) max_name_len`
characters whenever the name fits or at least three characters remain
for it (the hypothesis of the amended C6). -/
theorem displayName_length (item : MenuEntry)
    (h : (item.name.length : Int) ≤ displayMaxNameLen item ∨ 3 ≤ displayMaxNameLen item) :
    ((displayName item).length : Int) =
      min (item.name.length : Int) (displayMaxNameLen item) := by
  unfold displayName
  by_cases htr : (item.name.length : Int) > displayMaxNameLen item
  · have h3 : 3 ≤ displayMaxNameLen item := by
      rcases h with h | h
      · omega
      · exact h
    rw [if_pos htr, String.length_append, pySliceTo_length,
      if_pos (by omega : (0 : Int) ≤ displayMaxNameLen item - 3)]
    have hdots : ("..." : String).length = 3 := rfl
    rw [hdots]
    push_cast
    omega
  · rw [if_neg htr]
    omega

/-- The padding length, written through the component lengths. -/
theorem displayPadding_length (item : MenuEntry) :
    (displayPadding item).length =
      ((COLUMN_WIDTH : Int) - (displayPfx item).length -
        ((displayName item).length + (displayShortcutRaw item).length)).toNat := by
  unfold displayPadding
  rw [pyRepeat_length, String.length_append]
  norm_cast

/-- Claim C6 (amended).  The rendered cell has exactly `COLUMN_WIDTH`
(43) printable characters whenever the name fits the space left by the
prefix and the bracketed shortcut, or at least 3 characters of that
space remain (so the ellipsis fits); the cell decomposes as
prefix-plus-name followed by the untruncated bracketed shortcut and
the padding, and the name is left untruncated exactly when it fits.
The correction: with an extreme shortcut or id - when fewer than 3
characters remain for a too-long name - the Python negative-slice
arithmetic makes the cell OVERFLOW the column instead (see the
counterexample), so the claim's "regardless of the lengths" fails. -/
theorem c6_render_width (item : MenuEntry)
    (h : (item.name.length : Int) ≤ displayMaxNameLen item ∨ 3 ≤ displayMaxNameLen item) :
    (format_item_for_display item).length = COLUMN_WIDTH
    ∧ format_item_for_display item =
        (displayPfx item ++ displayName item) ++
          (displayShortcutRaw item ++ displayPadding item)
    ∧ ((item.name.length : Int) ≤ displayMaxNameLen item → displayName item = item.name) := by
  have hname := displayName_length item h
  have hpad := displayPadding_length item
  have hM : displayMaxNameLen item =
      (COLUMN_WIDTH : Int) - (displayPfx item).length - (displayShortcutRaw item).length := rfl
  refine ⟨?_, ?_, ?_⟩
  · unfold format_item_for_display
    rw [String.length_append, String.length_append, String.length_append, hpad]
    have hCW : COLUMN_WIDTH = 43 := rfl
    rw [hCW] at hM hpad ⊢
    omega
  · unfold format_item_for_display
    rw [String.append_assoc]
  · intro hfit
    unfold displayName
    rw [if_neg (by omega)]

/-- Claim C6, counterexample.  An entry with a one-character name and a
40-character shortcut: the prefix takes 8 columns and the bracketed
shortcut 43, so `max_name_len = -8`; the negative Python slice turns
the name into a bare ellipsis and the padding collapses to empty,
giving a 54-character cell instead of 43. -/
theorem c6_counterexample :
    (format_item_for_display wideShortcutEntry).length = 54
    ∧ (format_item_for_display wideShortcutEntry).length ≠ COLUMN_WIDTH := by
  refine ⟨by decide, by decide⟩

/-- Witness for C6: a long name with a two-character shortcut is
truncated to the ellipsis and the cell has exactly 43 characters. -/
theorem c6_witness :
    ((3 : Int) ≤ displayMaxNameLen longNameEntry)
    ∧ (format_item_for_display longNameEntry).length = COLUMN_WIDTH :=
  ⟨by decide, (c6_render_width longNameEntry (Or.inr (by decide))).1⟩

/-! ### C7: process exit codes -/

/-- Claim C7, counterexample - two ways the original claim fails.
First, the empty config file parses to the empty array, which
validates successfully and is returned by `load_and_validate_config` -
yet `main` exits with status 1, because `if not config` is also true
of the empty list.  Second, on a valid NON-empty config, selecting an
entry whose action carries clipboard content while `pyperclip.copy`
raises aborts the run (the pre-step of `execute_action` is outside its
try-block and nothing above catches the exception), and the
interpreter terminates with status 1 - so "exit code 1 exactly when
config loading fails" is false in both directions. -/
theorem c7_counterexample :
    load_and_validate_config (.parsed []) = some []
    ∧ main sysOk actionOfNone (.parsed []) 3 [">e"] = some 1
    ∧ load_and_validate_config (.parsed [plainRaw 1]) = some [plainRaw 1]
    ∧ main sysClipBoom (fun _ => programClipAction) (.parsed [plainRaw 1]) 3 ["1"]
        = some 1 := by
  refine ⟨by decide, by decide, by decide, ?_⟩
  have hs : sortByNumer [plainRaw 1] = [plainRaw 1] :=
    List.perm_singleton.mp (List.mergeSort_perm [plainRaw 1] _)
  unfold main
  rw [show load_and_validate_config (.parsed [plainRaw 1]) = some [plainRaw 1] from rfl]
  simp only
  rw [if_neg (by decide : ¬([plainRaw 1].isEmpty = true)), hs]
  decide

/-- Claim C7 (amended).  Whenever a run of `main` terminates, its exit
status is 0 or 1; loading failure and the successfully validated EMPTY
config both exit with status 1 (the `if not config` falsiness check
conflates them); and for a valid non-empty config the status is 0
exactly when the machine ends through the normal `sys.exit(0)` path
(user-driven exit, mistake-limit exit, or post-action exit), while a
run aborted by an uncaught dispatch exception - the clipboard pre-step
escaping `execute_action` - terminates with status 1. -/
theorem c7_exit_codes (sys : SysBehavior) (actionOf : MenuEntry → ActionItem)
    (pr : ParseResult) (fuel : Nat) (inputs : List String) (c : Nat)
    (h : main sys actionOf pr fuel inputs = some c) :
    (c = 0 ∨ c = 1)
    ∧ (load_and_validate_config pr = none ∨ load_and_validate_config pr = some [] → c = 1)
    ∧ (∀ data, load_and_validate_config pr = some data → data ≠ [] →
        (machineRun sys actionOf ((sortByNumer data).map RawItem.toEntry) fuel .launcher inputs
            = some .exitZero ↔ c = 0)
        ∧ (∀ exn, machineRun sys actionOf ((sortByNumer data).map RawItem.toEntry)
              fuel .launcher inputs = some (.uncaught exn) → c = 1)) := by
  unfold main at h
  cases hl : load_and_validate_config pr with
  | none =>
    rw [hl] at h
    simp only at h
    injection h with h
    subst h
    refine ⟨Or.inr rfl, fun _ => rfl, ?_⟩
    intro data hdata
    cases hdata
  | some data =>
    rw [hl] at h
    simp only at h
    by_cases hd : data.isEmpty
    · rw [if_pos hd] at h
      injection h with h
      subst h
      have hdata : data = [] := by
        cases data with
        | nil => rfl
        | cons x xs => simp [List.isEmpty] at hd
      subst hdata
      refine ⟨Or.inr rfl, fun _ => rfl, ?_⟩
      intro data2 hdata2 hne
      injection hdata2 with hdata2
      exact absurd hdata2.symm hne
    · rw [if_neg hd] at h
      have hne : data ≠ [] := by
        intro hnil
        rw [hnil] at hd
        simp [List.isEmpty] at hd
      cases hm : machineRun sys actionOf ((sortByNumer data).map RawItem.toEntry)
          fuel .launcher inputs with
      | none => rw [hm] at h; exact absurd h (by simp)
      | some u =>
        rw [hm] at h
        simp only [Option.map_some'] at h
        injection h with h
        subst h
        refine ⟨?_, ?_, ?_⟩
        · cases u with
          | exitZero => exact Or.inl rfl
          | uncaught exn => exact Or.inr rfl
        · intro habs
          rcases habs with habs | habs
          · cases habs
          · injection habs with habs
            exact absurd habs hne
        · intro data2 hdata2 hne2
          injection hdata2 with hdata2
          subst hdata2
          constructor
          · rw [hm]
            constructor
            · intro he
              injection he with he
              subst he
              rfl
            · intro hc
              cases u with
              | exitZero => rfl
              | uncaught exn => exact absurd hc (by simp [LoopEnd.exitStatus])
          · intro exn hexn
            rw [hm] at hexn
            injection hexn with hexn
            subst hexn
            rfl

/-- Witness for C7: a one-entry config and an immediate global exit
command terminate normally with exit status 0. -/
theorem c7_witness :
    main sysOk actionOfNone (.parsed [plainRaw 1]) 2 [">e"] = some 0
    ∧ ((0 : Nat) = 0 ∨ (0 : Nat) = 1) :=
  ⟨by decide,
    (c7_exit_codes sysOk actionOfNone (.parsed [plainRaw 1]) 2 [">e"] 0 (by decide)).1⟩

/-! ### C8: dispatch never aborts - except for the clipboard pre-step -/

/-- Claim C8, counterexample.  The clipboard pre-step of lines 314-320
runs before (outside) the try-block: when `pyperclip.copy` raises, the
exception escapes `execute_action` - and neither `run_launcher_mode`
nor `main` catches it, so the host process aborts with a traceback.
The claim's "dispatch(entry) never aborts the host process" fails. -/
theorem c8_counterexample :
    execute_action sysClipBoom programClipAction [] =
      .error "PyperclipException: could not find a copy mechanism" := by
  decide

/-- Claim C8 (amended).  For an entry with no clipboard content (so the
unprotected pre-step is not exercised), dispatch never raises: it
always returns a result; every failure of the primary effect inside
the try-block is caught and reported as the non-fatal failed outcome
carrying the cause, control returning to the caller; and a
`search_with_app` action whose submitted phrase strips to empty yields
the cancellation outcome - a constructor distinct from failure. -/
theorem c8_dispatch (sys : SysBehavior) (a : ActionItem) (inputs : List String)
    (hclip : a.clipboard = none) :
    (∃ r, execute_action sys a inputs = .ok r)
    ∧ (∀ e rest, primaryEffect sys a inputs = (.error e, rest) →
        execute_action sys a inputs = .ok ⟨none, .failed e, rest⟩)
    ∧ (a.type = some "search_with_app" → ∀ phrase rest, inputs = phrase :: rest →
        pyStrip phrase = "" → execute_action sys a inputs = .ok ⟨none, .cancelled, rest⟩) := by
  have hx : execute_action sys a inputs = .ok (finishDispatch sys a inputs none) := by
    unfold execute_action
    rw [hclip]
  refine ⟨⟨_, hx⟩, ?_, ?_⟩
  · intro e rest hpe
    rw [hx]
    unfold finishDispatch
    rw [hpe]
  · intro htype phrase rest hin hstrip
    subst hin
    rw [hx]
    unfold finishDispatch primaryEffect
    rw [htype]
    simp only [hstrip, if_pos]

/-- Witness for C8: an empty-phrase search in an environment where all
spawns fail is reported as a cancellation, not a failure. -/
theorem c8_witness :
    execute_action sysAllFail searchAction ["   "] = .ok ⟨none, .cancelled, []⟩ :=
  (c8_dispatch sysAllFail searchAction ["   "] rfl).2.2 rfl "   " [] rfl (by decide)

/-! ### C9: the two-column layout -/

/-- Reading a list through the first `k` positions: the existing
prefix, then `none` past the end. -/
theorem rangeMapGet {α : Type} (m : List α) :
    ∀ k, (List.range k).map (fun i => m[i]?) =
      (m.take k).map some ++ List.replicate (k - m.length) none := by
  induction m with
  | nil =>
    intro k
    simp [List.getElem?_nil]
  | cons a m ih =>
    intro k
    cases k with
    | zero => simp
    | succ j =>
      rw [List.range_succ_eq_map]
      simp only [List.map_cons, List.map_map, Function.comp_def, List.getElem?_cons_zero,
        List.getElem?_cons_succ, List.take_succ_cons, List.length_cons]
      rw [ih j]
      simp [Nat.succ_sub_succ]

/-- `filterMap id` drops a block of `none`s. -/
theorem filterMap_id_replicate_none {α : Type} (k : Nat) :
    (List.replicate k (none : Option α)).filterMap id = [] := by
  induction k with
  | zero => rfl
  | succ j ih => simp [List.replicate_succ, List.filterMap_cons, ih]

/-- `filterMap id` recovers a list wrapped in `some`s. -/
theorem filterMap_id_map_some {α : Type} (l : List α) : (l.map some).filterMap id = l := by
  rw [List.filterMap_map]
  simp

/-- Counting the blanks in a block of `none`s. -/
theorem countP_isNone_replicate {α : Type} (k : Nat) :
    (List.replicate k (none : Option α)).countP (fun o => o.isNone) = k := by
  induction k with
  | zero => rfl
  | succ j ih => simp [List.replicate_succ, List.countP_cons, ih]

/-- A list of `some`s has no blanks. -/
theorem countP_isNone_map_some {α : Type} (l : List α) :
    (l.map some).countP (fun o => o.isNone) = 0 := by
  induction l with
  | nil => rfl
  | cons a l ih => simp [List.countP_cons, ih]

/-- Claim C9.  For a category of `n` entries the layout puts the first
`ceil(n/2) = (n+1)/2` entries in the left column; the right column's
occupied cells are exactly the remaining `floor(n/2) = n/2` entries in
order; concatenating the occupied cells left-then-right recovers the
original order; and the right column holds exactly `n % 2` blank
cells - one exactly when `n` is odd. -/
theorem c9_layout (items : List MenuEntry) :
    (layoutTwoColumn items).1 = (items.take (splitPointCeil items.length)).map some
    ∧ ((layoutTwoColumn items).2).filterMap id = items.drop (splitPointCeil items.length)
    ∧ ((layoutTwoColumn items).1).filterMap id ++ ((layoutTwoColumn items).2).filterMap id
        = items
    ∧ (((layoutTwoColumn items).1).filterMap id).length = (items.length + 1) / 2
    ∧ (((layoutTwoColumn items).2).filterMap id).length = items.length / 2
    ∧ ((layoutTwoColumn items).2).countP (fun o => o.isNone) = items.length % 2 := by
  have hle : splitPointCeil items.length ≤ items.length := by
    simp only [splitPointCeil]
    omega
  have hL : (layoutTwoColumn items).1 = (items.take (splitPointCeil items.length)).map some := by
    show (List.range _).map _ = _
    rw [rangeMapGet]
    rw [show splitPointCeil items.length - items.length = 0 from by omega]
    simp
  have hR : (layoutTwoColumn items).2 =
      (items.drop (splitPointCeil items.length)).map some
        ++ List.replicate (items.length % 2) none := by
    show (List.range _).map _ = _
    have hrw : (fun i => items[i + splitPointCeil items.length]?) =
        (fun i => (items.drop (splitPointCeil items.length))[i]?) := by
      funext i
      rw [List.getElem?_drop]
      congr 1
      omega
    rw [hrw, rangeMapGet]
    rw [List.take_of_length_le (by rw [List.length_drop]; simp only [splitPointCeil]; omega)]
    have harith : splitPointCeil items.length - (items.drop (splitPointCeil items.length)).length
        = items.length % 2 := by
      rw [List.length_drop]
      simp only [splitPointCeil]
      omega
    rw [harith]
  have hRf : ((layoutTwoColumn items).2).filterMap id
      = items.drop (splitPointCeil items.length) := by
    rw [hR, List.filterMap_append, filterMap_id_map_some, filterMap_id_replicate_none,
      List.append_nil]
  have hLf : ((layoutTwoColumn items).1).filterMap id
      = items.take (splitPointCeil items.length) := by
    rw [hL, filterMap_id_map_some]
  refine ⟨hL, hRf, ?_, ?_, ?_, ?_⟩
  · rw [hLf, hRf, List.take_append_drop]
  · rw [hLf, List.length_take]
    simp only [splitPointCeil]
    omega
  · rw [hRf, List.length_drop]
    simp only [splitPointCeil]
    omega
  · rw [hR, List.countP_append, countP_isNone_map_some, countP_isNone_replicate]
    omega

end PyPilot
